import Mathlib

/-!
Shallow embedding of the canonical Meredith firmware variant
(src/meredith_hardware.ino, second draft: the one with retrigger and
explicit reset notices, which the spec designates as the canonical target).

Timestamps are `millis()` readings: unsigned 32-bit counters, modelled as
`Nat` with explicit wraparound-safe subtraction `usub` mirroring C unsigned
`a - b`.  A loop pass is modelled as one tick with a single clock reading
`now`; pin reads are the boolean inputs of the tick.  LED writes, sounds and
serial prints are feedback-collaborator side effects and carry no state, so
they are not part of the state transition.
-/

namespace Meredith

/-- Modulus of Arduino `unsigned long` arithmetic (2^32). -/
def wrap : Nat := 4294967296

/-- C unsigned-long subtraction `a - b`, wraparound-safe, as used by every
elapsed-time comparison in the firmware. -/
def usub (a b : Nat) : Nat := (a % wrap + (wrap - b % wrap)) % wrap

/-- Constant `big_button_long_press_limit` from the source. -/
def big_button_long_press_limit : Nat := 5000

/-- Constant `default_trigger_alert_limit` from the source. -/
def default_trigger_alert_limit : Nat := 5000

/-- Constant `default_retrigger_alert_limit` from the source. -/
def default_retrigger_alert_limit : Nat := 9000

/-- Constant `health_check_time_between` from the source. -/
def health_check_time_between : Nat := 3600000

/-- Constant `override_length` from the source. -/
def override_length : Nat := 60000

/-- The lifecycle events dispatched over HTTP.  `initialAlert` and
`retrigger` both encode as `send_http_request(primaryAlertId)`; `reset`
encodes as `send_http_request(primaryAlertId, true)`; `health` as
`send_http_request()`. -/
inductive Dispatch where
  | health : Dispatch
  | initialAlert : Nat → Dispatch
  | retrigger : Nat → Dispatch
  | reset : Nat → Dispatch
deriving DecidableEq

/-- Protocol-level failure classification (spec section 4.3 taxonomy). -/
inductive ProtocolFailure where
  | invalidStatusLine : ProtocolFailure
  | unexpectedStatus : Int → ProtocolFailure
  | malformedHeaders : ProtocolFailure
  | badBody : ProtocolFailure
deriving DecidableEq

/-- Outcome of one `send_http_request` call.  `transportError` covers both
early returns where no connection is established (wifi status not connected:
three disgruntled tones; `client.connect` failure: two disgruntled tones).
`sendFailed` is the `client.println() == 0` "Failed to send request" path. -/
inductive Outcome where
  | transportError : Outcome
  | sendFailed : Outcome
  | protocolError : ProtocolFailure → Outcome
  | success : Outcome
deriving DecidableEq

/-- Struct `TimedTriggerConfig` from the source, pin/LED identities omitted
(pure collaborator wiring).  Field order follows the source struct. -/
structure TimedTriggerConfig where
  trigger_press_start_time : Nat
  trigger_alert_limit : Nat
  primaryAlertId : Nat
  isAlerting : Bool
  last_alert_send_time : Nat
  retrigger_alert_limit : Nat
deriving DecidableEq

/-- Result of one `checkTrigger` pass: the updated config, the dispatch the
pass performed (if any), and the outcome the dispatcher returned for it. -/
structure TriggerStepResult where
  config : TimedTriggerConfig
  dispatch : Option Dispatch
  outcome : Option Outcome
deriving DecidableEq

/-- Embeds `checkTrigger(TimedTriggerConfig&)` from the canonical source,
instrumented with the dispatcher `send` it calls.  Mirrors the source
statement for statement: `pressed` is `digitalRead(config.trigger) == HIGH`,
`now` the tick's `millis()` reading.  Note the state mutations are written
before `send_http_request` is invoked, exactly as in the source, and the
send's outcome is ignored (the C function returns void). -/
def checkTriggerSend (send : Dispatch → Outcome) (config : TimedTriggerConfig)
    (pressed : Bool) (now : Nat) : TriggerStepResult :=
  if pressed then
    if config.trigger_press_start_time = 0 then
      -- newly detected trigger press
      ⟨{ config with trigger_press_start_time := now }, none, none⟩
    else if config.isAlerting then
      -- send a new alert if retrigger_alert_limit time has passed
      if usub now config.last_alert_send_time > config.retrigger_alert_limit then
        let c2 := { config with last_alert_send_time := now }
        let d := Dispatch.retrigger config.primaryAlertId
        ⟨c2, some d, some (send d)⟩
      else
        ⟨config, none, none⟩
    else if usub now config.trigger_press_start_time > config.trigger_alert_limit then
      -- time limit has passed and an initial alert needs to be triggered
      let c2 := { config with isAlerting := true, last_alert_send_time := now }
      let d := Dispatch.initialAlert config.primaryAlertId
      ⟨c2, some d, some (send d)⟩
    else
      ⟨config, none, none⟩
  else if config.isAlerting then
    -- Trigger can cease alerting
    let c2 := { config with trigger_press_start_time := 0, last_alert_send_time := 0,
                            isAlerting := false }
    let d := Dispatch.reset config.primaryAlertId
    ⟨c2, some d, some (send d)⟩
  else
    ⟨config, none, none⟩

/-- The state-and-dispatch view of `checkTrigger` (the send outcome is
ignored by the source, so the transition is independent of it; that
independence is proved below). -/
def checkTrigger (config : TimedTriggerConfig) (pressed : Bool) (now : Nat) :
    TimedTriggerConfig × Option Dispatch :=
  let r := checkTriggerSend (fun _ => Outcome.success) config pressed now
  (r.config, r.dispatch)

/-- Run `checkTrigger` over a list of ticks `(pressed, now)`, collecting the
per-tick dispatch of each pass. -/
def runTrigger (config : TimedTriggerConfig) :
    List (Bool × Nat) → TimedTriggerConfig × List (Option Dispatch)
  | [] => (config, [])
  | (p, t) :: rest =>
    let r := checkTrigger config p t
    let w := runTrigger r.1 rest
    (w.1, r.2 :: w.2)

/-- Globals driven by `handleBigButton` and `manageTriggerOverrideTimer`,
in source declaration order. -/
structure BigButtonState where
  bigButtonPushDuration : Nat
  shouldOverrideTimedTriggers : Bool
  triggerOverrideStartTime : Nat
deriving DecidableEq

/-- Result of one `handleBigButton` pass: the updated globals plus flags
recording whether this pass entered the override-activation branch, the
override-deactivation branch, and the short-press forced health check. -/
structure BigButtonResult where
  state : BigButtonState
  activated : Bool
  deactivated : Bool
  healthForced : Bool
deriving DecidableEq

/-- Embeds `handleBigButton()` from the canonical source.  `pressed` is
`digitalRead(button_health_check) == HIGH`.  The two long-press `if`s run
sequentially, the second seeing the override flag as left by the first,
exactly as in the source; `bigButtonPushDuration` is only cleared on the
release path. -/
def handleBigButton (s : BigButtonState) (pressed : Bool) (now : Nat) :
    BigButtonResult :=
  if pressed then
    let d := if s.bigButtonPushDuration = 0 then now else s.bigButtonPushDuration
    -- held past the long press limit and not yet overridden: initiate override
    let fire1 := usub now d > big_button_long_press_limit
                   && !s.shouldOverrideTimedTriggers
    let ov1 := if fire1 then true else s.shouldOverrideTimedTriggers
    let ws1 := if fire1 then now else s.triggerOverrideStartTime
    -- held past the extended limit and already overridden: kill the override
    let fire2 := usub now d > big_button_long_press_limit + 3000 && ov1
    let ov2 := if fire2 then false else ov1
    let ws2 := if fire2 then 0 else ws1
    ⟨⟨d, ov2, ws2⟩, fire1, fire2, false⟩
  else if s.bigButtonPushDuration > 0 then
    -- button released after being pressed: short press forces a health check
    ⟨⟨0, s.shouldOverrideTimedTriggers, s.triggerOverrideStartTime⟩,
      false, false,
      decide (usub now s.bigButtonPushDuration < big_button_long_press_limit)⟩
  else
    ⟨s, false, false, false⟩

/-- Run `handleBigButton` over a list of ticks, collecting per-tick
`(activated, deactivated)` flags. -/
def runBigButton (s : BigButtonState) :
    List (Bool × Nat) → BigButtonState × List (Bool × Bool)
  | [] => (s, [])
  | (p, t) :: rest =>
    let r := handleBigButton s p t
    let w := runBigButton r.state rest
    (w.1, (r.activated, r.deactivated) :: w.2)

/-- Prefix test `startsWith pat l`: C `strncmp(l, pat, pat.length) == 0` as a
prefix test on character lists. -/
def startsWith : List Char → List Char → Bool
  | [], _ => true
  | _ :: _, [] => false
  | p :: ps, c :: cs => p = c && startsWith ps cs

/-- Substring search over the remaining stream: `client.find(pat)`. -/
def containsSeq (pat : List Char) : List Char → Bool
  | [] => startsWith pat []
  | c :: cs => startsWith pat (c :: cs) || containsSeq pat cs

/-- Leading-digit accumulation for `atoi`. -/
def digitsVal : List Char → Nat → Nat
  | c :: cs, acc => if c.isDigit then digitsVal cs (acc * 10 + (c.toNat - 48)) else acc
  | [], acc => acc

/-- C `atoi`: skip whitespace, optional sign, then leading digits (0 when
none). -/
def atoi (s : List Char) : Int :=
  let s1 := s.dropWhile fun c =>
    c = ' ' || c = '\t' || c = '\n' || c = '\x0b' || c = '\x0c' || c = '\x0d'
  match s1 with
  | '-' :: rest => - (digitsVal rest 0 : Int)
  | '+' :: rest => (digitsVal rest 0 : Int)
  | _ => (digitsVal s1 0 : Int)

/-- Models `client.readBytesUntil` (terminator `'\r'`, cap 32) on the response stream:
returns the captured status-line buffer (at most 32 bytes, stops before the
terminator) and the unconsumed remainder of the stream (the terminator, when
reached within the cap, is consumed but not stored). -/
def splitResp (resp : List Char) : List Char × List Char :=
  let pre := resp.takeWhile fun c => c ≠ '\x0d'
  if pre.length < 32 then
    (pre, resp.drop (pre.length + 1))
  else
    (pre.take 32, resp.drop 32)

/-- Embeds `send_http_request(primaryAlertId, isResetingAlert)` response handling
from the canonical source, as a classification of one exchange.
`wifiConnected` is `status == WL_CONNECTED` after the reconnect attempt
(early return with three disgruntled tones otherwise), `connectOk` is
`client.connect(SECRET_SERVER, 443)`, `sendOk` is `client.println() != 0`,
and `resp` is the raw response byte stream.  The checks run in source
order: status-line prefix `"HTTP/1.1"` via `strncmp`, then
`atoi(reqStatus + 9)` against [200,300), then `client.find("\r\n\r\n")`.
The body is never parsed in the canonical variant: once the header
terminator is found the exchange is a success. -/
def send_http_request (wifiConnected connectOk sendOk : Bool)
    (resp : List Char) : Outcome :=
  if !wifiConnected then
    Outcome.transportError
  else if !connectOk then
    Outcome.transportError
  else if !sendOk then
    Outcome.sendFailed
  else
    let parts := splitResp resp
    let reqStatus := parts.1
    if startsWith "HTTP/1.1".toList reqStatus then
      let statusCode := atoi (reqStatus.drop 9)
      if 200 ≤ statusCode ∧ statusCode < 300 then
        if containsSeq "\x0d\x0a\x0d\x0a".toList parts.2 then
          Outcome.success
        else
          Outcome.protocolError ProtocolFailure.malformedHeaders
      else
        Outcome.protocolError (ProtocolFailure.unexpectedStatus statusCode)
    else
      Outcome.protocolError ProtocolFailure.invalidStatusLine

/-- The globals touched by one pass of `loop()`. -/
structure LoopState where
  bigButton : BigButtonState
  trigger_left : TimedTriggerConfig
  trigger_right : TimedTriggerConfig
  healthCheckLastSendTime : Nat
deriving DecidableEq

/-- One pass of `loop()`: `handleBigButton` (whose release path may call
`sendHealthCheck(true)`, forcing a health dispatch and stamping
`healthCheckLastSendTime`), then `checkTrigger` on the left and right
triggers, then the scheduled `sendHealthCheck()`, then
`manageTriggerOverrideTimer()`'s expiry check.  Inputs are the three pin
reads and the tick's clock reading; the output list holds the dispatches of
the pass in source call order. -/
def loopStep (s : LoopState) (btn leftPressed rightPressed : Bool) (now : Nat) :
    LoopState × List Dispatch :=
  let br := handleBigButton s.bigButton btn now
  let h1 := if br.healthForced then now else s.healthCheckLastSendTime
  let d0 : List Dispatch := if br.healthForced then [Dispatch.health] else []
  let l := checkTrigger s.trigger_left leftPressed now
  let r := checkTrigger s.trigger_right rightPressed now
  let scheduled := usub now h1 > health_check_time_between
  let h2 := if scheduled then now else h1
  let d3 : List Dispatch := if scheduled then [Dispatch.health] else []
  let bb0 := br.state
  let bb :=
    if bb0.shouldOverrideTimedTriggers
        && usub now bb0.triggerOverrideStartTime > override_length then
      ⟨bb0.bigButtonPushDuration, false, 0⟩
    else bb0
  (⟨bb, l.1, r.1, h2⟩, d0 ++ l.2.toList ++ r.2.toList ++ d3)

/-- Run the poll loop over a list of ticks `(btn, left, right, now)`,
concatenating the dispatches of every pass. -/
def runLoop (s : LoopState) :
    List (Bool × Bool × Bool × Nat) → LoopState × List Dispatch
  | [] => (s, [])
  | (b, lp, rp, t) :: rest =>
    let r := loopStep s b lp rp t
    let w := runLoop r.1 rest
    (w.1, r.2 ++ w.2)

/-- Dispatches produced by the Trigger Monitors (as opposed to health
checks). -/
def isTriggerDispatch : Dispatch → Bool
  | Dispatch.health => false
  | _ => true

/-- The trigger-monitor dispatch subsequence of a run's output. -/
def triggerDispatches (l : List Dispatch) : List Dispatch :=
  l.filter isTriggerDispatch

/-- The invariant of spec section 3 on a Trigger Monitor: alerting implies a
recorded press start, and an unset press start implies not alerting (0 is
the unset sentinel, as in the source). -/
def triggerInv (c : TimedTriggerConfig) : Prop :=
  (c.isAlerting = true → c.trigger_press_start_time ≠ 0) ∧
  (c.trigger_press_start_time = 0 → c.isAlerting = false)

instance (c : TimedTriggerConfig) : Decidable (triggerInv c) := by
  unfold triggerInv; infer_instance

/-- Wraparound-safe subtraction agrees with plain subtraction when the
clock has not wrapped between the two readings. -/
theorem usub_eq_sub (a b : Nat) (hb : b ≤ a) (ha : a < wrap) : usub a b = a - b := by
  have hw : wrap = 4294967296 := rfl
  unfold usub
  rw [hw] at ha ⊢
  rw [Nat.mod_eq_of_lt ha, Nat.mod_eq_of_lt (lt_of_le_of_lt hb ha)]
  omega

/-- C1: the claim says a release while Waiting (press recorded, not
alerting) clears `trigger_press_start_time` and returns the monitor to
Idle.  The canonical `checkTrigger` has no else-branch for the
released-and-not-alerting case, so the sample emits no dispatch but leaves
the stale press start in place; a later press sample then fires an
immediate `InitialAlert` even though the new press just began, contradicting
the documented behavior (alerts only after the trigger has been active
longer than its threshold).  Concretely: state with press start 100, not
alerting, released at 200 → unchanged state (start still 100, not cleared);
pressing again at 10000 fires `InitialAlert` on that very sample. -/
theorem checkTrigger_waiting_release_retains_start :
    (checkTrigger ⟨100, 5000, 1, false, 0, 9000⟩ false 200).2 = none
    ∧ (checkTrigger ⟨100, 5000, 1, false, 0, 9000⟩ false 200).1
        = ⟨100, 5000, 1, false, 0, 9000⟩
    ∧ (checkTrigger ⟨100, 5000, 1, false, 0, 9000⟩ true 10000).2
        = some (Dispatch.initialAlert 1) := by decide

/-- C6: a sample with the trigger released while Alerting emits exactly the
`Reset` dispatch and simultaneously clears `trigger_press_start_time`,
clears `last_alert_send_time`, and drops `isAlerting`, returning the
monitor to Idle. -/
theorem checkTrigger_release_reset (c : TimedTriggerConfig) (now : Nat)
    (hA : c.isAlerting = true) :
    checkTrigger c false now =
      ({ c with trigger_press_start_time := 0, last_alert_send_time := 0,
                isAlerting := false },
        some (Dispatch.reset c.primaryAlertId)) := by
  simp [checkTrigger, checkTriggerSend, hA]

/-- Witness for `checkTrigger_release_reset` at a concrete alerting state. -/
theorem checkTrigger_release_reset_witness :
    (⟨7, 5000, 2, true, 6000, 9000⟩ : TimedTriggerConfig).isAlerting = true
    ∧ checkTrigger ⟨7, 5000, 2, true, 6000, 9000⟩ false 7000 =
        (⟨0, 5000, 2, false, 0, 9000⟩, some (Dispatch.reset 2)) :=
  ⟨rfl, checkTrigger_release_reset ⟨7, 5000, 2, true, 6000, 9000⟩ 7000 rfl⟩

/-- C5: while Alerting and still pressed, a `Retrigger` is emitted at a
sample exactly when the wraparound-safe elapsed time since
`last_alert_send_time` exceeds `retrigger_alert_limit`; an emission updates
`last_alert_send_time` to `now` and a non-emission leaves the state
untouched, so a sample within `retrigger_alert_limit` of an emission
produces no further dispatch: consecutive `Retrigger`s are separated by
more than `retrigger_alert_limit`. -/
theorem checkTrigger_retrigger_cadence (c : TimedTriggerConfig)
    (now now2 : Nat) (hA : c.isAlerting = true)
    (hP : c.trigger_press_start_time ≠ 0) :
    ((checkTrigger c true now).2 = some (Dispatch.retrigger c.primaryAlertId)
        ↔ usub now c.last_alert_send_time > c.retrigger_alert_limit)
    ∧ (usub now c.last_alert_send_time > c.retrigger_alert_limit →
        (checkTrigger c true now).1 = { c with last_alert_send_time := now })
    ∧ (usub now c.last_alert_send_time ≤ c.retrigger_alert_limit →
        checkTrigger c true now = (c, none))
    ∧ (usub now c.last_alert_send_time > c.retrigger_alert_limit →
        usub now2 now ≤ c.retrigger_alert_limit →
        (checkTrigger (checkTrigger c true now).1 true now2).2 = none) := by
  by_cases h : usub now c.last_alert_send_time > c.retrigger_alert_limit
  · refine ⟨by simp [checkTrigger, checkTriggerSend, hA, hP, h], fun _ => ?_,
      fun hle => absurd h (by omega), fun _ h2 => ?_⟩
    · simp [checkTrigger, checkTriggerSend, hA, hP, h]
    · have hstate : (checkTrigger c true now).1
          = { c with last_alert_send_time := now } := by
        simp [checkTrigger, checkTriggerSend, hA, hP, h]
      rw [hstate]
      have hnot : ¬ usub now2 now > c.retrigger_alert_limit := by omega
      simp [checkTrigger, checkTriggerSend, hA, hP, hnot]
  · refine ⟨by simp [checkTrigger, checkTriggerSend, hA, hP, h],
      fun hgt => absurd hgt h, fun _ => ?_, fun hgt => absurd hgt h⟩
    simp [checkTrigger, checkTriggerSend, hA, hP, h]

/-- Witness for `checkTrigger_retrigger_cadence` at a concrete alerting
state: elapsed 9500 > 9000 emits and restamps, then elapsed 500 stays
silent. -/
theorem checkTrigger_retrigger_cadence_witness :
    (⟨300, 5000, 1, true, 6000, 9000⟩ : TimedTriggerConfig).isAlerting = true
    ∧ ((checkTrigger ⟨300, 5000, 1, true, 6000, 9000⟩ true 15500).2
        = some (Dispatch.retrigger 1)
      ↔ usub 15500 6000 > 9000) :=
  ⟨rfl, (checkTrigger_retrigger_cadence ⟨300, 5000, 1, true, 6000, 9000⟩
    15500 16000 rfl (by decide)).1⟩

/-- C8: the spec invariant (alerting implies a recorded press start; unset
press start implies not alerting) holds of every reachable Trigger Monitor
state: one `checkTrigger` sample preserves it, and hence so does any run of
samples. -/
theorem checkTrigger_preserves_inv (c : TimedTriggerConfig) (p : Bool)
    (now : Nat) (ticks : List (Bool × Nat)) (h : triggerInv c) :
    triggerInv (checkTrigger c p now).1
    ∧ triggerInv (runTrigger c ticks).1 := by
  have step : ∀ (c' : TimedTriggerConfig) (p' : Bool) (t : Nat),
      triggerInv c' → triggerInv (checkTrigger c' p' t).1 := by
    intro c' p' t h'
    obtain ⟨h1, h2⟩ := h'
    unfold checkTrigger checkTriggerSend
    split_ifs with hp hz hal hr hlim hal2 <;>
      simp_all [triggerInv]
  refine ⟨step c p now h, ?_⟩
  induction ticks generalizing c with
  | nil => exact h
  | cons hd tl ih =>
    obtain ⟨p', t⟩ := hd
    exact ih _ (step c p' t h)

/-- Witness for `checkTrigger_preserves_inv`: the initial state of a
trigger satisfies the invariant and keeps it across a concrete sample and a
concrete run. -/
theorem checkTrigger_preserves_inv_witness :
    triggerInv ⟨0, 5000, 1, false, 0, 9000⟩
    ∧ triggerInv (checkTrigger ⟨0, 5000, 1, false, 0, 9000⟩ true 400).1
    ∧ triggerInv (runTrigger ⟨0, 5000, 1, false, 0, 9000⟩
        [(true, 400), (true, 6000), (false, 6100)]).1 := by
  have h0 : triggerInv ⟨0, 5000, 1, false, 0, 9000⟩ := by decide
  have h := checkTrigger_preserves_inv ⟨0, 5000, 1, false, 0, 9000⟩ true 400
    [(true, 400), (true, 6000), (false, 6100)] h0
  exact ⟨h0, h.1, h.2⟩

/-- C10: the state updates of an `InitialAlert` or `Retrigger` pass
(`isAlerting := true`, `last_alert_send_time := now`) are written before
the dispatcher is invoked and are never rolled back: the resulting state
and dispatch are the same for every dispatcher outcome (first conjunct),
and after a failed `InitialAlert` the updated state stays committed
(`isAlerting` true, `last_alert_send_time = now`), so a subsequent pressed
sample within `retrigger_alert_limit` of the failed attempt emits nothing:
the alert is not re-attempted until the retrigger cadence elapses. -/
theorem alert_state_committed_before_send
    (send1 send2 : Dispatch → Outcome) (c : TimedTriggerConfig)
    (p : Bool) (now now2 : Nat) :
    ((checkTriggerSend send1 c p now).config
        = (checkTriggerSend send2 c p now).config
      ∧ (checkTriggerSend send1 c p now).dispatch
        = (checkTriggerSend send2 c p now).dispatch)
    ∧ (c.trigger_press_start_time ≠ 0 → c.isAlerting = false →
        usub now c.trigger_press_start_time > c.trigger_alert_limit →
        (checkTriggerSend send1 c true now).dispatch
            = some (Dispatch.initialAlert c.primaryAlertId)
        ∧ (checkTriggerSend send1 c true now).config.isAlerting = true
        ∧ (checkTriggerSend send1 c true now).config.last_alert_send_time = now
        ∧ (usub now2 now ≤ c.retrigger_alert_limit →
            (checkTriggerSend send2
              (checkTriggerSend send1 c true now).config true now2).dispatch
              = none)) := by
  constructor
  · unfold checkTriggerSend
    split_ifs <;> simp
  · intro hP hA hlim
    have hc : (checkTriggerSend send1 c true now).config
        = { c with isAlerting := true, last_alert_send_time := now } := by
      simp [checkTriggerSend, hP, hA, hlim]
    refine ⟨by simp [checkTriggerSend, hP, hA, hlim], by rw [hc], by rw [hc], ?_⟩
    intro h2
    rw [hc]
    have hnot : ¬ usub now2 now > c.retrigger_alert_limit := by omega
    simp [checkTriggerSend, hP, hnot]

/-- Witness for `alert_state_committed_before_send`: a transport-failing
dispatcher and a succeeding one produce the same state transition, and the
failed initial alert at 5200 is not re-attempted at 6000. -/
theorem alert_state_committed_before_send_witness :
    ((⟨100, 5000, 1, false, 0, 9000⟩ : TimedTriggerConfig).trigger_press_start_time ≠ 0
      ∧ usub 5200 100 > 5000 ∧ usub 6000 5200 ≤ 9000)
    ∧ ((checkTriggerSend (fun _ => Outcome.transportError)
          ⟨100, 5000, 1, false, 0, 9000⟩ true 5200).config
        = (checkTriggerSend (fun _ => Outcome.success)
          ⟨100, 5000, 1, false, 0, 9000⟩ true 5200).config
      ∧ (checkTriggerSend (fun _ => Outcome.success)
          (checkTriggerSend (fun _ => Outcome.transportError)
            ⟨100, 5000, 1, false, 0, 9000⟩ true 5200).config true 6000).dispatch
          = none) := by
  have h := alert_state_committed_before_send
    (fun _ => Outcome.transportError) (fun _ => Outcome.success)
    ⟨100, 5000, 1, false, 0, 9000⟩ true 5200 6000
  exact ⟨⟨by decide, by decide, by decide⟩, h.1.1,
    (h.2 (by decide) rfl (by decide)).2.2.2 (by decide)⟩

/-- C2 counterexample: one continuous hold of the override button sampled
at 100, 6000, 9000, 10000 from the rest state.  The activation pass (second
tick) leaves `bigButtonPushDuration = 100` — the button timer marker is not
cleared — and after the deactivation pass (third tick) the continued hold
re-enters the activation branch on the fourth tick (and the deactivation
branch again in the same pass), so activation does not happen exactly once
per hold and further activations do occur during the same hold. -/
theorem handleBigButton_hold_cex :
    (runBigButton ⟨0, false, 0⟩
        [(true, 100), (true, 6000), (true, 9000), (true, 10000)]).2
      = [(false, false), (true, false), (false, true), (true, true)]
    ∧ (runBigButton ⟨0, false, 0⟩ [(true, 100), (true, 6000)]).1.bigButtonPushDuration
      = 100 := by decide

/-- C2 amended: during a continuous hold (timer marker already recorded and
nonzero), a pass with the button pressed keeps the marker unchanged (it is
never cleared while held); the activation branch runs exactly when the held
time exceeds `big_button_long_press_limit` and override is inactive; the
deactivation branch runs exactly when the held time exceeds
`big_button_long_press_limit + 3000` (in that case it always fires, whether
override was already active or was just activated in the same pass); and
the pass leaves override active exactly when it activated or was active,
and did not deactivate.  Hence a hold past the extended limit re-activates
and immediately re-deactivates override on every subsequent pass. -/
theorem handleBigButton_hold_characterization (s : BigButtonState) (now : Nat)
    (hd : s.bigButtonPushDuration ≠ 0) :
    (handleBigButton s true now).state.bigButtonPushDuration
      = s.bigButtonPushDuration
    ∧ ((handleBigButton s true now).activated = true ↔
        usub now s.bigButtonPushDuration > big_button_long_press_limit
        ∧ s.shouldOverrideTimedTriggers = false)
    ∧ ((handleBigButton s true now).deactivated = true ↔
        usub now s.bigButtonPushDuration > big_button_long_press_limit + 3000)
    ∧ (handleBigButton s true now).state.shouldOverrideTimedTriggers
      = (!(handleBigButton s true now).deactivated
          && ((handleBigButton s true now).activated
              || s.shouldOverrideTimedTriggers)) := by
  have hlim : big_button_long_press_limit = 5000 := rfl
  by_cases hov : s.shouldOverrideTimedTriggers = true
  all_goals by_cases h1 : usub now s.bigButtonPushDuration > big_button_long_press_limit
  all_goals by_cases h2 : usub now s.bigButtonPushDuration > big_button_long_press_limit + 3000
  all_goals simp_all [handleBigButton]
  all_goals omega

/-- Witness for `handleBigButton_hold_characterization`: held since 100,
sampled at 10000 with override inactive — the marker stays 100 and the pass
both activates and deactivates. -/
theorem handleBigButton_hold_characterization_witness :
    ((⟨100, false, 6000⟩ : BigButtonState).bigButtonPushDuration ≠ 0)
    ∧ (handleBigButton ⟨100, false, 6000⟩ true 10000).state.bigButtonPushDuration
        = 100
    ∧ ((handleBigButton ⟨100, false, 6000⟩ true 10000).deactivated = true ↔
        usub 10000 100 > big_button_long_press_limit + 3000) := by
  have h := handleBigButton_hold_characterization ⟨100, false, 6000⟩ 10000
    (by decide)
  exact ⟨by decide, h.1, h.2.2.1⟩

/-- A prefix test survives appending to the scanned list. -/
theorem startsWith_append (pat xs ys : List Char)
    (h : startsWith pat xs = true) : startsWith pat (xs ++ ys) = true := by
  induction pat generalizing xs with
  | nil => rfl
  | cons p ps ih =>
    cases xs with
    | nil => exact absurd h (by simp [startsWith])
    | cons c cs =>
      simp only [startsWith, Bool.and_eq_true] at h
      simp only [List.cons_append, startsWith, Bool.and_eq_true]
      exact ⟨h.1, ih cs h.2⟩

/-- A substring found in a stream is still found after appending to it. -/
theorem containsSeq_append_left (pat xs ys : List Char)
    (h : containsSeq pat xs = true) : containsSeq pat (xs ++ ys) = true := by
  induction xs with
  | nil =>
    have hpat : pat = [] := by
      cases pat with
      | nil => rfl
      | cons p ps => exact absurd h (by simp [containsSeq, startsWith])
    subst hpat
    cases ys with
    | nil => rfl
    | cons y ys' => simp [containsSeq, startsWith]
  | cons c cs ih =>
    simp only [containsSeq, Bool.or_eq_true] at h
    simp only [List.cons_append, containsSeq, Bool.or_eq_true]
    cases h with
    | inl h =>
      exact Or.inl (by simpa [List.cons_append] using
        startsWith_append pat (c :: cs) ys h)
    | inr h => exact Or.inr (ih h)

/-- Behavior of `readBytesUntil` on a stream made of a short `'\r'`-free status line,
its terminator, and the rest: captures the line, consumes the terminator,
leaves the rest. -/
theorem splitResp_append (line rest : List Char)
    (h1 : ∀ c ∈ line, c ≠ '\x0d') (h2 : line.length < 32) :
    splitResp (line ++ '\x0d' :: rest) = (line, rest) := by
  have htake : ∀ xs : List Char, (∀ c ∈ xs, c ≠ '\x0d') →
      List.takeWhile (fun c => decide (c ≠ '\x0d')) (xs ++ '\x0d' :: rest) = xs := by
    intro xs hx
    induction xs with
    | nil => simp [List.takeWhile_cons]
    | cons a l ihl =>
      have ha : a ≠ '\x0d' := hx a (by simp)
      simp only [List.cons_append, List.takeWhile_cons, decide_eq_true_eq]
      rw [if_pos ha, ihl (fun c hc => hx c (by simp [hc]))]
  have htake := htake line h1
  have hdrop : (line ++ '\x0d' :: rest).drop (line.length + 1) = rest := by
    rw [List.append_cons]
    have hl : (line ++ ['\x0d']).length = line.length + 1 := by simp
    calc ((line ++ ['\x0d']) ++ rest).drop (line.length + 1)
        = ((line ++ ['\x0d']) ++ rest).drop ((line ++ ['\x0d']).length + 0) := by
          rw [hl]
      _ = rest.drop 0 := List.drop_append 0
      _ = rest := rfl
  unfold splitResp
  rw [htake, if_pos h2, hdrop]

/-- A well-formed success exchange: short `HTTP/1.1` status line with a
2xx code, header terminator present in the remainder. -/
theorem send_http_request_ok (line rest : List Char)
    (h1 : ∀ c ∈ line, c ≠ '\x0d') (h2 : line.length < 32)
    (h3 : startsWith "HTTP/1.1".toList line = true)
    (h4 : 200 ≤ atoi (line.drop 9) ∧ atoi (line.drop 9) < 300)
    (h5 : containsSeq "\x0d\x0a\x0d\x0a".toList rest = true) :
    send_http_request true true true (line ++ '\x0d' :: rest)
      = Outcome.success := by
  have hpat : "HTTP/1.1".toList = ['H', 'T', 'T', 'P', '/', '1', '.', '1'] := rfl
  have hsep : "\x0d\x0a\x0d\x0a".toList = ['\x0d', '\n', '\x0d', '\n'] := rfl
  rw [hpat] at h3
  rw [hsep] at h5
  unfold send_http_request
  rw [splitResp_append line rest h1 h2]
  simp [h3, h4, h5]

/-- C7: the dispatcher classifies each exchange in source order, first
failure winning: wifi not connected or a failed `client.connect` give
`TransportError`; a captured status line not starting with the protocol
token gives `InvalidStatusLine`; a token-bearing status line whose parsed
code falls outside [200,300) gives `UnexpectedStatus(code)`; a 2xx status
line whose remaining stream lacks the `CRLFCRLF` header terminator gives
`MalformedHeaders`; and concretely `"HTTP/1.1 200 OK"` (headers
terminated) classifies `Success` while `"HTTP/1.1 404 Not Found"`
classifies `UnexpectedStatus(404)`. -/
theorem send_http_request_classification :
    (∀ (c s : Bool) (resp : List Char),
        send_http_request false c s resp = Outcome.transportError)
    ∧ (∀ (s : Bool) (resp : List Char),
        send_http_request true false s resp = Outcome.transportError)
    ∧ (∀ resp : List Char,
        startsWith "HTTP/1.1".toList (splitResp resp).1 = false →
        send_http_request true true true resp
          = Outcome.protocolError ProtocolFailure.invalidStatusLine)
    ∧ (∀ resp : List Char,
        startsWith "HTTP/1.1".toList (splitResp resp).1 = true →
        ¬ (200 ≤ atoi ((splitResp resp).1.drop 9)
            ∧ atoi ((splitResp resp).1.drop 9) < 300) →
        send_http_request true true true resp
          = Outcome.protocolError
              (ProtocolFailure.unexpectedStatus (atoi ((splitResp resp).1.drop 9))))
    ∧ (∀ resp : List Char,
        startsWith "HTTP/1.1".toList (splitResp resp).1 = true →
        (200 ≤ atoi ((splitResp resp).1.drop 9)
          ∧ atoi ((splitResp resp).1.drop 9) < 300) →
        containsSeq "\x0d\x0a\x0d\x0a".toList (splitResp resp).2 = false →
        send_http_request true true true resp
          = Outcome.protocolError ProtocolFailure.malformedHeaders)
    ∧ send_http_request true true true
        ("HTTP/1.1 200 OK\x0d\x0aContent-Type: text\x0d\x0a\x0d\x0aok".toList)
        = Outcome.success
    ∧ send_http_request true true true
        ("HTTP/1.1 404 Not Found\x0d\x0aX: y\x0d\x0a\x0d\x0a".toList)
        = Outcome.protocolError (ProtocolFailure.unexpectedStatus 404) := by
  have hpat : "HTTP/1.1".toList = ['H', 'T', 'T', 'P', '/', '1', '.', '1'] := rfl
  have hsepl : "\x0d\x0a\x0d\x0a".toList = ['\x0d', '\n', '\x0d', '\n'] := rfl
  refine ⟨fun _ _ _ => rfl, fun _ _ => rfl, ?_, ?_, ?_, by decide, by decide⟩
  · intro resp hsw
    rw [hpat] at hsw
    simp [send_http_request, hsw]
  · intro resp hsw hcode
    rw [hpat] at hsw
    simp [send_http_request, hsw, hcode]
  · intro resp hsw hcode hsep
    rw [hpat] at hsw
    rw [hsepl] at hsep
    simp [send_http_request, hsw, hcode, hsep]

/-- Witness for `send_http_request_classification`: its hypothesis-bearing
conjuncts applied at concrete exchanges. -/
theorem send_http_request_classification_witness :
    send_http_request true true true ("garbage".toList)
      = Outcome.protocolError ProtocolFailure.invalidStatusLine
    ∧ send_http_request true true true ("HTTP/1.1 500 Oops\x0d\x0a\x0d\x0a".toList)
      = Outcome.protocolError (ProtocolFailure.unexpectedStatus 500)
    ∧ send_http_request true true true ("HTTP/1.1 204 No Content\x0d\x0a".toList)
      = Outcome.protocolError ProtocolFailure.malformedHeaders := by
  have h := send_http_request_classification
  refine ⟨h.2.2.1 _ (by decide), ?_, h.2.2.2.2.1 _ (by decide) (by decide) (by decide)⟩
  have h500 := h.2.2.2.1 ("HTTP/1.1 500 Oops\x0d\x0a\x0d\x0a".toList)
    (by decide) (by decide)
  rw [h500]
  decide

/-- C3 counterexample: a Health exchange with a valid 2xx status line and a
terminated header block whose body is not a parsable structured document is
classified `Success` by the canonical dispatcher, not
`ProtocolError(BadBody)`: the canonical `send_http_request` never parses
the response body (the happy path just echoes it). -/
theorem send_http_request_no_badBody_cex :
    send_http_request true true true
      ("HTTP/1.1 200 OK\x0d\x0aContent-Type: application/json\x0d\x0a\x0d\x0anot a structured document".toList)
      = Outcome.success
    ∧ Outcome.success ≠ Outcome.protocolError ProtocolFailure.badBody := by
  constructor
  · decide
  · decide

/-- C3 amended: for a Health exchange whose connection succeeds, whose
status line is a valid `HTTP/1.1` line with a 2xx code, and whose header
terminator is found, the canonical dispatcher classifies the exchange
`Success` regardless of the response body — the body is never parsed, so a
body that fails to parse as a structured document is in particular still
considered delivered (there is no `BadBody` outcome in the code). -/
theorem send_http_request_body_ignored (body : List Char) :
    send_http_request true true true
      ("HTTP/1.1 200 OK\x0d\x0aContent-Type: application/json\x0d\x0a\x0d\x0a".toList
        ++ body)
      = Outcome.success := by
  have hform : "HTTP/1.1 200 OK\x0d\x0aContent-Type: application/json\x0d\x0a\x0d\x0a".toList
      ++ body
      = "HTTP/1.1 200 OK".toList
        ++ '\x0d' :: ("\x0aContent-Type: application/json\x0d\x0a\x0d\x0a".toList
          ++ body) := by
    have hsplit : "HTTP/1.1 200 OK\x0d\x0aContent-Type: application/json\x0d\x0a\x0d\x0a".toList
        = "HTTP/1.1 200 OK".toList
          ++ '\x0d' :: "\x0aContent-Type: application/json\x0d\x0a\x0d\x0a".toList := by
      decide
    rw [hsplit]
    simp
  rw [hform]
  exact send_http_request_ok _ _ (by decide) (by decide) (by decide) (by decide)
    (containsSeq_append_left _ _ body (by decide))

/-- Filtering trigger dispatches distributes over concatenation. -/
theorem triggerDispatches_append (a b : List Dispatch) :
    triggerDispatches (a ++ b) = triggerDispatches a ++ triggerDispatches b :=
  List.filter_append a b

/-- One loop pass: states agreeing on everything but the override fields
produce identical trigger dispatches and stay in agreement. -/
theorem loopStep_override_indep (s1 s2 : LoopState) (b lp rp : Bool) (t : Nat)
    (hbb : s1.bigButton.bigButtonPushDuration
      = s2.bigButton.bigButtonPushDuration)
    (hl : s1.trigger_left = s2.trigger_left)
    (hr : s1.trigger_right = s2.trigger_right)
    (hh : s1.healthCheckLastSendTime = s2.healthCheckLastSendTime) :
    triggerDispatches (loopStep s1 b lp rp t).2
      = triggerDispatches (loopStep s2 b lp rp t).2
    ∧ (loopStep s1 b lp rp t).1.bigButton.bigButtonPushDuration
      = (loopStep s2 b lp rp t).1.bigButton.bigButtonPushDuration
    ∧ (loopStep s1 b lp rp t).1.trigger_left
      = (loopStep s2 b lp rp t).1.trigger_left
    ∧ (loopStep s1 b lp rp t).1.trigger_right
      = (loopStep s2 b lp rp t).1.trigger_right
    ∧ (loopStep s1 b lp rp t).1.healthCheckLastSendTime
      = (loopStep s2 b lp rp t).1.healthCheckLastSendTime := by
  have hforce : (handleBigButton s1.bigButton b t).healthForced
      = (handleBigButton s2.bigButton b t).healthForced := by
    by_cases hb : b = true
    · simp [handleBigButton, hb]
    · simp only [handleBigButton, hb, if_false, Bool.false_eq_true, ite_false]
      rw [hbb]
      by_cases hz : s2.bigButton.bigButtonPushDuration > 0 <;> simp [hz]
  have hdm : (handleBigButton s1.bigButton b t).state.bigButtonPushDuration
      = (handleBigButton s2.bigButton b t).state.bigButtonPushDuration := by
    by_cases hb : b = true
    · simp [handleBigButton, hb, hbb]
    · simp only [handleBigButton, hb, if_false, Bool.false_eq_true, ite_false]
      rw [hbb]
      by_cases hz : s2.bigButton.bigButtonPushDuration > 0 <;> simp [hz, hbb]
  have hexp : ∀ bb : BigButtonState,
      (if bb.shouldOverrideTimedTriggers
          && usub t bb.triggerOverrideStartTime > override_length then
        (⟨bb.bigButtonPushDuration, false, 0⟩ : BigButtonState)
      else bb).bigButtonPushDuration = bb.bigButtonPushDuration := by
    intro bb
    split <;> rfl
  refine ⟨?_, ?_, ?_, ?_, ?_⟩
  · simp only [loopStep]
    rw [hforce, hl, hr, hh]
  · simp only [loopStep]
    rw [hexp, hexp, hdm]
  · simp only [loopStep]
    rw [hl]
  · simp only [loopStep]
    rw [hr]
  · simp only [loopStep]
    rw [hforce, hh]

/-- C9: two poll-loop runs fed identical pin inputs and clock readings
whose states differ only in the override window
(`shouldOverrideTimedTriggers` / `triggerOverrideStartTime`) produce the
same sequence of Trigger Monitor dispatches (`InitialAlert`, `Retrigger`,
`Reset`): the override window drives only feedback outputs and never gates
trigger dispatch evaluation. -/
theorem override_independent_trigger_dispatches
    (s1 s2 : LoopState) (inputs : List (Bool × Bool × Bool × Nat))
    (hbb : s1.bigButton.bigButtonPushDuration
      = s2.bigButton.bigButtonPushDuration)
    (hl : s1.trigger_left = s2.trigger_left)
    (hr : s1.trigger_right = s2.trigger_right)
    (hh : s1.healthCheckLastSendTime = s2.healthCheckLastSendTime) :
    triggerDispatches (runLoop s1 inputs).2
      = triggerDispatches (runLoop s2 inputs).2 := by
  induction inputs generalizing s1 s2 with
  | nil => rfl
  | cons hd tl ih =>
    obtain ⟨b, lp, rp, t⟩ := hd
    have hstep := loopStep_override_indep s1 s2 b lp rp t hbb hl hr hh
    have hrun1 : (runLoop s1 ((b, lp, rp, t) :: tl)).2
        = (loopStep s1 b lp rp t).2
          ++ (runLoop (loopStep s1 b lp rp t).1 tl).2 := rfl
    have hrun2 : (runLoop s2 ((b, lp, rp, t) :: tl)).2
        = (loopStep s2 b lp rp t).2
          ++ (runLoop (loopStep s2 b lp rp t).1 tl).2 := rfl
    rw [hrun1, hrun2, triggerDispatches_append, triggerDispatches_append,
      hstep.1, ih _ _ hstep.2.1 hstep.2.2.1 hstep.2.2.2.1 hstep.2.2.2.2]

/-- Witness for `override_independent_trigger_dispatches`: an
override-active and an override-inactive state with the same triggers see
the same trigger dispatches on a concrete run crossing the alert
threshold. -/
theorem override_independent_trigger_dispatches_witness :
    triggerDispatches (runLoop
        ⟨⟨0, false, 0⟩, ⟨100, 5000, 1, false, 0, 9000⟩,
          ⟨0, 5000, 2, false, 0, 9000⟩, 0⟩
        [(false, true, false, 6000), (false, false, false, 6200)]).2
      = triggerDispatches (runLoop
        ⟨⟨0, true, 2000⟩, ⟨100, 5000, 1, false, 0, 9000⟩,
          ⟨0, 5000, 2, false, 0, 9000⟩, 0⟩
        [(false, true, false, 6000), (false, false, false, 6200)]).2 :=
  override_independent_trigger_dispatches
    ⟨⟨0, false, 0⟩, ⟨100, 5000, 1, false, 0, 9000⟩,
      ⟨0, 5000, 2, false, 0, 9000⟩, 0⟩
    ⟨⟨0, true, 2000⟩, ⟨100, 5000, 1, false, 0, 9000⟩,
      ⟨0, 5000, 2, false, 0, 9000⟩, 0⟩
    [(false, true, false, 6000), (false, false, false, 6200)]
    rfl rfl rfl rfl

/-- The first element surviving `dropWhile` fails the predicate. -/
theorem dropWhile_head_false (p : Nat → Bool) (l : List Nat) (x : Nat)
    (xs : List Nat) (h : l.dropWhile p = x :: xs) : p x = false := by
  induction l with
  | nil => simp [List.dropWhile] at h
  | cons a l ih =>
    rw [List.dropWhile_cons] at h
    by_cases hp : p a = true
    · rw [if_pos hp] at h
      exact ih h
    · rw [if_neg hp] at h
      obtain ⟨rfl, -⟩ := List.cons.injEq .. ▸ h
      simpa using hp

/-- Running over concatenated tick lists composes. -/
theorem runTrigger_append (c : TimedTriggerConfig) (xs ys : List (Bool × Nat)) :
    runTrigger c (xs ++ ys)
      = ((runTrigger (runTrigger c xs).1 ys).1,
          (runTrigger c xs).2 ++ (runTrigger (runTrigger c xs).1 ys).2) := by
  induction xs generalizing c with
  | nil => simp [runTrigger]
  | cons hd tl ih =>
    obtain ⟨p, t⟩ := hd
    simp [runTrigger, ih]

/-- A Waiting monitor fed held samples that stay within the threshold of
its recorded press start emits nothing and is left unchanged. -/
theorem runTrigger_waiting (alertId L R t0 last : Nat) (ts : List Nat)
    (h0 : t0 ≠ 0)
    (hts : ∀ t ∈ ts, t0 ≤ t ∧ t < wrap ∧ t - t0 ≤ L) :
    runTrigger ⟨t0, L, alertId, false, last, R⟩ (ts.map fun t => (true, t))
      = (⟨t0, L, alertId, false, last, R⟩, ts.map fun _ => none) := by
  induction ts with
  | nil => rfl
  | cons t rest ih =>
    obtain ⟨ht0, htw, htL⟩ := hts t (by simp)
    have hnot : ¬ usub t t0 > L := by
      rw [usub_eq_sub t t0 ht0 htw]
      omega
    have hstep : checkTrigger ⟨t0, L, alertId, false, last, R⟩ true t
        = (⟨t0, L, alertId, false, last, R⟩, none) := by
      simp [checkTrigger, checkTriggerSend, h0, hnot]
    simp [runTrigger, hstep, ih fun x hx => hts x (by simp [hx])]

/-- An Alerting monitor with a recorded press start only ever emits
`Retrigger` (or nothing) while held: never another `InitialAlert`. -/
theorem runTrigger_alerting (alertId L R p : Nat) (hp : p ≠ 0) (ts : List Nat) :
    ∀ last, ∀ o ∈ (runTrigger ⟨p, L, alertId, true, last, R⟩
        (ts.map fun t => (true, t))).2,
      o = none ∨ o = some (Dispatch.retrigger alertId) := by
  induction ts with
  | nil =>
    intro last o ho
    simp [runTrigger] at ho
  | cons t rest ih =>
    intro last o ho
    simp only [List.map_cons, runTrigger] at ho
    by_cases hr : usub t last > R
    · have hstep : checkTrigger ⟨p, L, alertId, true, last, R⟩ true t
          = (⟨p, L, alertId, true, t, R⟩, some (Dispatch.retrigger alertId)) := by
        simp [checkTrigger, checkTriggerSend, hp, hr]
      rw [hstep] at ho
      simp only [List.mem_cons] at ho
      rcases ho with h | h
      · exact Or.inr h
      · exact ih t o h
    · have hstep : checkTrigger ⟨p, L, alertId, true, last, R⟩ true t
          = (⟨p, L, alertId, true, last, R⟩, none) := by
        simp [checkTrigger, checkTriggerSend, hp, hr]
      rw [hstep] at ho
      simp only [List.mem_cons] at ho
      rcases ho with h | h
      · exact Or.inl h
      · exact ih last o h

/-- C4: from Idle under a continuous hold first sampled at `t0 > 0`, with
strictly increasing non-wrapping clock readings, the monitor emits no
dispatch at any tick whose reading is within `alert_threshold` of the
recorded press start `t0`; it emits exactly one `InitialAlert` when some
tick crosses the threshold (and none otherwise); the emitting tick is the
first one whose reading exceeds `t0` by more than the threshold; and any
sample that emits an `InitialAlert` simultaneously sets `isAlerting` and
stamps `last_alert_send_time` with its own clock reading. -/
theorem checkTrigger_initial_alert_run
    (alertId L R t0 : Nat) (ts : List Nat) (h0 : 0 < t0)
    (hmono : List.Pairwise (fun a b => a < b) (t0 :: ts))
    (hb : ∀ t ∈ t0 :: ts, t < wrap) :
    (∀ pr ∈ (t0 :: ts).zip
        (runTrigger ⟨0, L, alertId, false, 0, R⟩
          ((t0 :: ts).map fun t => (true, t))).2,
      pr.1 - t0 ≤ L → pr.2 = none)
    ∧ (runTrigger ⟨0, L, alertId, false, 0, R⟩
        ((t0 :: ts).map fun t => (true, t))).2.count
          (some (Dispatch.initialAlert alertId))
      = (if ∃ t ∈ ts, L < t - t0 then 1 else 0)
    ∧ (∀ pr ∈ (t0 :: ts).zip
        (runTrigger ⟨0, L, alertId, false, 0, R⟩
          ((t0 :: ts).map fun t => (true, t))).2,
      pr.2 = some (Dispatch.initialAlert alertId) →
        (ts.dropWhile fun t => decide (t - t0 ≤ L)).head? = some pr.1)
    ∧ (∀ (c : TimedTriggerConfig) (now : Nat),
        (checkTrigger c true now).2
            = some (Dispatch.initialAlert c.primaryAlertId) →
        (checkTrigger c true now).1.isAlerting = true
        ∧ (checkTrigger c true now).1.last_alert_send_time = now) := by
  classical
  have hcommit : ∀ (c : TimedTriggerConfig) (now : Nat),
      (checkTrigger c true now).2
          = some (Dispatch.initialAlert c.primaryAlertId) →
      (checkTrigger c true now).1.isAlerting = true
      ∧ (checkTrigger c true now).1.last_alert_send_time = now := by
    intro c now h
    unfold checkTrigger checkTriggerSend at *
    split_ifs at h <;> simp_all
  have h0' : t0 ≠ 0 := Nat.pos_iff_ne_zero.mp h0
  have hlt : ∀ t ∈ ts, t0 < t := (List.pairwise_cons.mp hmono).1
  have hpwts : List.Pairwise (fun a b => a < b) ts :=
    (List.pairwise_cons.mp hmono).2
  set P : Nat → Bool := fun t => decide (t - t0 ≤ L) with hP
  have hsplit : ts.takeWhile P ++ ts.dropWhile P = ts :=
    List.takeWhile_append_dropWhile P ts
  have hmem_pre : ∀ t ∈ ts.takeWhile P, t0 ≤ t ∧ t < wrap ∧ t - t0 ≤ L := by
    intro t ht
    have htts : t ∈ ts := (List.takeWhile_sublist P).subset ht
    refine ⟨le_of_lt (hlt t htts), hb t (by simp [htts]), ?_⟩
    have hPt := List.mem_takeWhile_imp ht
    simpa [hP] using hPt
  have hstep0 : checkTrigger ⟨0, L, alertId, false, 0, R⟩ true t0
      = (⟨t0, L, alertId, false, 0, R⟩, none) := by
    simp [checkTrigger, checkTriggerSend]
  have hwait := runTrigger_waiting alertId L R t0 0 (ts.takeWhile P) h0' hmem_pre
  have hmaps : (ts.map fun t => (true, t))
      = ((ts.takeWhile P).map fun t => (true, t))
        ++ ((ts.dropWhile P).map fun t => (true, t)) := by
    rw [← List.map_append, hsplit]
  have hrun0 : (runTrigger ⟨0, L, alertId, false, 0, R⟩
      ((t0 :: ts).map fun t => (true, t))).2
      = none :: (runTrigger ⟨t0, L, alertId, false, 0, R⟩
          (ts.map fun t => (true, t))).2 := by
    simp [runTrigger, hstep0]
  rcases hpost : ts.dropWhile P with _ | ⟨p1, prest⟩
  · -- the hold never crosses the threshold
    have hpre_eq : ts.takeWhile P = ts := by
      have h' := hsplit
      rw [hpost, List.append_nil] at h'
      exact h'
    have hall : ∀ t ∈ ts, t - t0 ≤ L := by
      intro t ht
      exact (hmem_pre t (hpre_eq.symm ▸ ht)).2.2
    have hout : (runTrigger ⟨0, L, alertId, false, 0, R⟩
        ((t0 :: ts).map fun t => (true, t))).2
        = none :: ts.map fun _ => none := by
      rw [hrun0]
      have := runTrigger_waiting alertId L R t0 0 ts h0'
        (fun t ht => ⟨le_of_lt (hlt t ht), hb t (by simp [ht]), hall t ht⟩)
      rw [this]
    refine ⟨?_, ?_, ?_, hcommit⟩
    · intro pr hpr _
      rw [hout, List.zip_cons_cons] at hpr
      rcases List.mem_cons.mp hpr with h | h
      · rw [h]
      · have := (List.of_mem_zip h).2
        rcases List.mem_map.mp this with ⟨a, _, ha⟩
        exact ha.symm
    · rw [hout]
      have hnone : ∀ o ∈ (none :: ts.map fun _ => (none : Option Dispatch)),
          o = none := by
        intro o ho
        rcases List.mem_cons.mp ho with h | h
        · exact h
        · rcases List.mem_map.mp h with ⟨a, _, ha⟩
          exact ha.symm
      have hcount : (none :: ts.map fun _ => (none : Option Dispatch)).count
          (some (Dispatch.initialAlert alertId)) = 0 := by
        rw [List.count_eq_zero]
        intro hmem
        exact (Option.some_ne_none _) (hnone _ hmem)
      rw [hcount, if_neg]
      rintro ⟨t, ht, hgt⟩
      exact absurd (hall t ht) (by omega)
    · intro pr hpr hia
      rw [hout, List.zip_cons_cons] at hpr
      rcases List.mem_cons.mp hpr with h | h
      · rw [h] at hia
        exact absurd hia.symm (Option.some_ne_none _)
      · have := (List.of_mem_zip h).2
        rcases List.mem_map.mp this with ⟨a, _, ha⟩
        rw [← ha] at hia
        exact absurd hia.symm (Option.some_ne_none _)
  · -- p1 is the first crossing tick
    have hp1post : p1 ∈ ts.dropWhile P := by
      rw [hpost]
      simp
    have hp1ts : p1 ∈ ts := (List.dropWhile_sublist P).subset hp1post
    have hp1cross : L < p1 - t0 := by
      have hhead := dropWhile_head_false P ts p1 prest hpost
      simp only [hP, decide_eq_false_iff_not] at hhead
      omega
    have hp1b : p1 < wrap := hb p1 (by simp [hp1ts])
    have hp1gt : t0 < p1 := hlt p1 hp1ts
    have hstep1 : checkTrigger ⟨t0, L, alertId, false, 0, R⟩ true p1
        = (⟨t0, L, alertId, true, p1, R⟩,
            some (Dispatch.initialAlert alertId)) := by
      have hgt : usub p1 t0 > L := by
        rw [usub_eq_sub p1 t0 (le_of_lt hp1gt) hp1b]
        omega
      simp [checkTrigger, checkTriggerSend, h0', hgt]
    have hpp : List.Pairwise (fun a b => a < b) (p1 :: prest) := by
      rw [← hpost]
      exact hpwts.sublist (List.dropWhile_sublist P)
    have hprest_gt : ∀ t ∈ prest, p1 < t := (List.pairwise_cons.mp hpp).1
    have halert := runTrigger_alerting alertId L R t0 h0' prest p1
    have hout : (runTrigger ⟨0, L, alertId, false, 0, R⟩
        ((t0 :: ts).map fun t => (true, t))).2
        = none :: (((ts.takeWhile P).map fun _ => none)
            ++ some (Dispatch.initialAlert alertId)
              :: (runTrigger ⟨t0, L, alertId, true, p1, R⟩
                  (prest.map fun t => (true, t))).2) := by
      rw [hrun0, hmaps, runTrigger_append, hwait]
      rw [hpost]
      simp only [List.map_cons, runTrigger, hstep1]
    have hts_eq : ts = ts.takeWhile P ++ p1 :: prest := by
      rw [← hpost, hsplit]
    have hzip : (t0 :: ts).zip (runTrigger ⟨0, L, alertId, false, 0, R⟩
        ((t0 :: ts).map fun t => (true, t))).2
        = (t0, none)
          :: ((ts.takeWhile P).zip ((ts.takeWhile P).map fun _ => none)
            ++ (p1, some (Dispatch.initialAlert alertId))
              :: prest.zip (runTrigger ⟨t0, L, alertId, true, p1, R⟩
                  (prest.map fun t => (true, t))).2) := by
      rw [hout]
      nth_rewrite 1 [hts_eq]
      rw [List.zip_cons_cons, List.zip_append, List.zip_cons_cons]
      rw [List.length_map]
    refine ⟨?_, ?_, ?_, hcommit⟩
    · intro pr hpr hle
      rw [hzip] at hpr
      rcases List.mem_cons.mp hpr with h | h
      · rw [h]
      rcases List.mem_append.mp h with h | h
      · have := (List.of_mem_zip h).2
        rcases List.mem_map.mp this with ⟨a, _, ha⟩
        exact ha.symm ▸ rfl
      rcases List.mem_cons.mp h with h | h
      · exfalso
        rw [h] at hle
        simp only at hle
        omega
      · exfalso
        obtain ⟨h1, _⟩ := List.of_mem_zip h
        have := hprest_gt pr.1 h1
        omega
    · rw [hout]
      rw [List.count_cons_of_ne (by simp), List.count_append]
      have hcpre : (((ts.takeWhile P).map fun _ => (none : Option Dispatch))).count
          (some (Dispatch.initialAlert alertId)) = 0 := by
        rw [List.count_eq_zero]
        intro hmem
        rcases List.mem_map.mp hmem with ⟨a, _, ha⟩
        exact (Option.some_ne_none _) ha.symm
      rw [hcpre, List.count_cons_self]
      have hctail : (runTrigger ⟨t0, L, alertId, true, p1, R⟩
          (prest.map fun t => (true, t))).2.count
            (some (Dispatch.initialAlert alertId)) = 0 := by
        rw [List.count_eq_zero]
        intro hmem
        rcases halert _ hmem with h | h
        · exact (Option.some_ne_none _) h
        · simp at h
      rw [hctail, if_pos ⟨p1, hp1ts, hp1cross⟩]
    · intro pr hpr hia
      rw [hzip] at hpr
      rcases List.mem_cons.mp hpr with h | h
      · rw [h] at hia
        exact absurd hia.symm (Option.some_ne_none _)
      rcases List.mem_append.mp h with h | h
      · have := (List.of_mem_zip h).2
        rcases List.mem_map.mp this with ⟨a, _, ha⟩
        rw [← ha] at hia
        exact absurd hia.symm (Option.some_ne_none _)
      rcases List.mem_cons.mp h with h | h
      · rw [h]
        rfl
      · exfalso
        have hsnd := (List.of_mem_zip h).2
        rcases halert _ hsnd with hn | hrt
        · rw [hia] at hn
          exact (Option.some_ne_none _) hn
        · rw [hia] at hrt
          simp at hrt

/-- Witness for `checkTrigger_initial_alert_run`: held from 100 with ticks
3000, 5200, 6000 and threshold 5000, exactly one `InitialAlert` is
counted. -/
theorem checkTrigger_initial_alert_run_witness :
    (runTrigger ⟨0, 5000, 1, false, 0, 9000⟩
        [(true, 100), (true, 3000), (true, 5200), (true, 6000)]).2.count
      (some (Dispatch.initialAlert 1)) = 1 := by
  have h := checkTrigger_initial_alert_run 1 5000 9000 100 [3000, 5200, 6000]
    (by decide) (by decide) (by decide)
  exact h.2.1.trans (by decide)

end Meredith
